import Mathlib

/-
Verification of the Trivia-Genius service (src/main.py): a FastAPI app with
two endpoints, GET /generate_question and POST /evaluate_answer, that build a
prompt, call the Google generative-AI provider, and map exceptions to HTTP
responses. The embedding below translates the module-level startup code and
the two handlers into pure Lean functions; the external provider call
`model.generate_content(prompt)` is a parameter of type `Provider`, whose
outcome is one of: success with a text, a rate-limit exception, a request
exception, or any other exception (the three `except` arms of the source).
Python exception flow is made explicit: the body of each `try` block returns
`Except PyExc Response`, and the chain of `except` clauses is the function
`handleExc`, matched in source order. An `HTTPException` raised inside the
`try` block is itself an `Exception` in Python, so it is represented as a
`PyExc` value and fed through `handleExc` like any other exception. Each
handler also returns the list of (model, prompt) provider calls it performed,
so that "the provider is not called" is expressible.
-/

namespace TriviaGenius

/-- Python `str.strip()`: remove leading and trailing whitespace characters,
modelled on the character list of the string. -/
def stripChars (l : List Char) : List Char :=
  ((l.dropWhile Char.isWhitespace).reverse.dropWhile Char.isWhitespace).reverse

/-- Python `str.strip()` lifted to `String` (embeds `response.text.strip()`). -/
def pyStrip (s : String) : String :=
  String.mk (stripChars s.data)

/-- Outcome of one call to `model.generate_content(prompt)`: either a text
response or one of the exception classes the source's `except` clauses
distinguish (`genai.types.RateLimitError`, `genai.types.RequestError`, any
other `Exception` with message `msg`). -/
inductive ProviderResult where
  | ok (text : String)
  | rateLimit
  | requestErr (msg : String)
  | otherErr (msg : String)
deriving DecidableEq

/-- The external provider as a function from (model name, prompt) to an
outcome. -/
def Provider : Type := String → String → ProviderResult

/-- A Python exception value as it flows through a handler's `try` block:
a FastAPI `HTTPException` (status, detail), a `genai.types.RateLimitError`,
a `genai.types.RequestError`, or any other `Exception`. -/
inductive PyExc where
  | httpExc (status : Nat) (detail : String)
  | rateLimitErr
  | requestErr (msg : String)
  | otherExc (msg : String)
deriving DecidableEq

/-- Python `str(e)` for the exception values above. For a (Starlette)
`HTTPException` this is `f"{status_code}: {detail}"`. -/
def strOfExc : PyExc → String
  | .httpExc s d => toString s ++ ": " ++ d
  | .rateLimitErr => "rate limit exceeded"
  | .requestErr m => m
  | .otherExc m => m

/-- An HTTP response: status code plus a JSON object with string values
(both success bodies and FastAPI's `HTTPException` bodies have this shape). -/
structure Response where
  status : Nat
  body : List (String × String)
deriving DecidableEq

/-- The process-wide state established by the module-level startup code:
the resolved `GENAI_API_KEY` and the `available_models` list. -/
structure AppState where
  GENAI_API_KEY : String
  available_models : List String
deriving DecidableEq

/-- Python truthiness test `not GENAI_API_KEY` for `os.getenv` results:
true when the variable is absent (`None`) or the empty string. -/
def pyFalsy : Option String → Bool
  | none => true
  | some s => s = ""

/-- The `available_models` computed by the startup `try` block: the fetched
names on success, `[]` when `genai.list_models()` raised. -/
def fetchedModels : Except String (List String) → List String
  | .ok ms => ms
  | .error _ => []

/-- Module-level startup of `src/main.py`: read `GENAI_API_KEY`, raise
`ValueError` (abort the process) when it is absent or empty, otherwise
build the process state with the model list fetched (or `[]` on fetch
failure). -/
def startup (envKey : Option String) (listModels : Except String (List String)) :
    Except String AppState :=
  if pyFalsy envKey then
    .error "❌ Google Gemini API key is missing! Set GENAI_API_KEY in .env or environment variables."
  else
    .ok { GENAI_API_KEY := envKey.getD "", available_models := fetchedModels listModels }

/-- The fixed model identifier used by both handlers. -/
def model_name : String := "models/gemini-1.5-flash"

/-- Detail string of the `HTTPException(400)` raised when the model is not in
`available_models`. -/
def modelNotFoundDetail : String :=
  "Model " ++ model_name ++ " not found. Check your API access."

/-- The prompt built by `generate_question`. -/
def genPrompt (topic : String) : String :=
  "Generate a " ++ topic ++ " learning question."

/-- Response raised by the in-handler credential check
(`HTTPException(500, "Google Gemini API key is missing!")`). -/
def keyMissingResponse : Response :=
  ⟨500, [("detail", "Google Gemini API key is missing!")]⟩

/-- The chain of `except` clauses shared by both handlers (they differ only
in the wording of the 429 detail, passed as `quotaDetail`): first
`RateLimitError` → 429, then `RequestError` → 400 with the underlying
message, then the blanket `except Exception` → 500 with `str(e)`. The
resulting `HTTPException` is rendered by FastAPI as a response with body
`{"detail": ...}`. -/
def handleExc (quotaDetail : String) : PyExc → Response
  | .rateLimitErr => ⟨429, [("detail", quotaDetail)]⟩
  | .requestErr m => ⟨400, [("detail", "Invalid request: " ++ m)]⟩
  | e => ⟨500, [("detail", "Unexpected error: " ++ strOfExc e)]⟩

/-- The `try` block of `generate_question`: check that `model_name` is in
`available_models` (raising `HTTPException(400, ...)` otherwise — note this
raise happens inside the `try`), then call the provider with the built
prompt and dispatch on its outcome. Also returns the list of provider calls
performed. -/
def generate_question_try (st : AppState) (topic : String) (provider : Provider) :
    Except PyExc Response × List (String × String) :=
  if model_name ∈ st.available_models then
    let prompt := genPrompt topic
    match provider model_name prompt with
    | .ok text => (.ok ⟨200, [("question", pyStrip text)]⟩, [(model_name, prompt)])
    | .rateLimit => (.error .rateLimitErr, [(model_name, prompt)])
    | .requestErr m => (.error (.requestErr m), [(model_name, prompt)])
    | .otherErr m => (.error (.otherExc m), [(model_name, prompt)])
  else
    (.error (.httpExc 400 modelNotFoundDetail), [])

/-- Body of `generate_question` after the credential check: run the `try`
block on the topic (defaulted to "math" by the route when the query
parameter is absent) and feed any exception through the `except` chain. -/
def generate_question_pipeline (st : AppState) (topic : Option String) (provider : Provider) :
    Response × List (String × String) :=
  match generate_question_try st (topic.getD "math") provider with
  | (.ok r, calls) => (r, calls)
  | (.error e, calls) => (handleExc "Quota exceeded. Please try again later." e, calls)

/-- The `GET /generate_question` handler: the in-handler credential check
followed by the try/except pipeline. -/
def generate_question (st : AppState) (topic : Option String) (provider : Provider) :
    Response × List (String × String) :=
  if st.GENAI_API_KEY = "" then (keyMissingResponse, [])
  else generate_question_pipeline st topic provider

/-- The pydantic request model of `POST /evaluate_answer`: two required
string fields. -/
structure AnswerRequest where
  question : String
  answer : String
deriving DecidableEq

/-- The multi-line prompt built by `evaluate_answer`. -/
def evalPrompt (req : AnswerRequest) : String :=
  "Here is a learning question: " ++ req.question ++ "\n" ++
  "The user's answer: " ++ req.answer ++ "\n" ++
  "Evaluate the correctness of this answer. If incorrect, provide a helpful hint or explanation."

/-- The `try` block of `evaluate_answer`, analogous to
`generate_question_try`. -/
def evaluate_answer_try (st : AppState) (req : AnswerRequest) (provider : Provider) :
    Except PyExc Response × List (String × String) :=
  if model_name ∈ st.available_models then
    let prompt := evalPrompt req
    match provider model_name prompt with
    | .ok text => (.ok ⟨200, [("feedback", pyStrip text)]⟩, [(model_name, prompt)])
    | .rateLimit => (.error .rateLimitErr, [(model_name, prompt)])
    | .requestErr m => (.error (.requestErr m), [(model_name, prompt)])
    | .otherErr m => (.error (.otherExc m), [(model_name, prompt)])
  else
    (.error (.httpExc 400 modelNotFoundDetail), [])

/-- Body of `evaluate_answer` after the credential check. -/
def evaluate_answer_pipeline (st : AppState) (req : AnswerRequest) (provider : Provider) :
    Response × List (String × String) :=
  match evaluate_answer_try st req provider with
  | (.ok r, calls) => (r, calls)
  | (.error e, calls) => (handleExc "Quota exceeded. Try again later." e, calls)

/-- The `POST /evaluate_answer` handler on an already-validated body. -/
def evaluate_answer (st : AppState) (req : AnswerRequest) (provider : Provider) :
    Response × List (String × String) :=
  if st.GENAI_API_KEY = "" then (keyMissingResponse, [])
  else evaluate_answer_pipeline st req provider

/-- FastAPI body validation against the pydantic model `AnswerRequest`:
a body yields a request value only when both required fields are present. -/
def parseAnswerRequest : Option String → Option String → Option AnswerRequest
  | some q, some a => some ⟨q, a⟩
  | _, _ => none

/-- The 422 schema-validation response FastAPI produces when the body does
not validate against `AnswerRequest` (body shape abstracted to a detail
entry). -/
def validationErrorResponse : Response :=
  ⟨422, [("detail", "field required")]⟩

/-- The `POST /evaluate_answer` route as seen from the wire: FastAPI
validates the body against `AnswerRequest` and rejects with 422 before the
handler (and hence the provider) is reached; otherwise it invokes the
handler. -/
def evaluate_answer_route (st : AppState) (q a : Option String) (provider : Provider) :
    Response × List (String × String) :=
  match parseAnswerRequest q a with
  | none => (validationErrorResponse, [])
  | some req => evaluate_answer st req provider

end TriviaGenius

namespace TriviaGenius

/-- Helper: `dropWhile` only removes a front segment, so the last element of a
nonempty `dropWhile` result is the last element of the original list. -/
theorem getLast?_of_getLast?_dropWhile {α : Type} (p : α → Bool) (l : List α) (c : α)
    (h : (l.dropWhile p).getLast? = some c) : l.getLast? = some c := by
  induction l with
  | nil => simp [List.dropWhile] at h
  | cons a t ih =>
    rw [List.dropWhile_cons] at h
    split at h
    · have ht := ih h
      cases t with
      | nil => simp at ht
      | cons b t' => rw [List.getLast?_cons_cons]; exact ht
    · exact h

/-- Helper: the first character of a stripped character list is not
whitespace. -/
theorem head?_stripChars_not_ws (l : List Char) (c : Char)
    (h : (stripChars l).head? = some c) : c.isWhitespace = false := by
  unfold stripChars at h
  rw [List.head?_reverse] at h
  have h2 := getLast?_of_getLast?_dropWhile Char.isWhitespace _ c h
  rw [List.getLast?_reverse] at h2
  have h3 := List.head?_dropWhile_not Char.isWhitespace l
  rw [h2] at h3
  exact h3

/-- Helper: the last character of a stripped character list is not
whitespace. -/
theorem getLast?_stripChars_not_ws (l : List Char) (c : Char)
    (h : (stripChars l).getLast? = some c) : c.isWhitespace = false := by
  unfold stripChars at h
  rw [List.getLast?_reverse] at h
  have h3 := List.head?_dropWhile_not Char.isWhitespace (l.dropWhile Char.isWhitespace).reverse
  rw [h] at h3
  exact h3

/-- Helper: stripping yields the empty list exactly when every character of
the input is whitespace. -/
theorem stripChars_eq_nil_iff (l : List Char) :
    stripChars l = [] ↔ l.all Char.isWhitespace = true := by
  simp only [stripChars, List.reverse_eq_nil_iff, List.dropWhile_eq_nil_iff,
    List.mem_reverse, List.all_eq_true]
  constructor
  · intro h x hx
    rcases List.mem_append.mp
        ((List.takeWhile_append_dropWhile Char.isWhitespace l).symm ▸ hx) with hx1 | hx2
    · exact List.mem_takeWhile_imp hx1
    · exact h x hx2
  · intro h x hx
    exact h x ((List.takeWhile_append_dropWhile Char.isWhitespace l) ▸ List.mem_append_right _ hx)

/-- Helper: `pyStrip` yields the empty string exactly when every character of
the input string is whitespace. -/
theorem pyStrip_eq_empty_iff (s : String) :
    pyStrip s = "" ↔ s.data.all Char.isWhitespace = true := by
  rw [show ("" : String) = String.mk [] from rfl]
  unfold pyStrip
  rw [String.ext_iff]
  exact stripChars_eq_nil_iff s.data

/-- Helper: whatever the state and provider outcome, `generate_question`
responds with one of the statuses 200, 400, 429, 500. -/
theorem generate_question_status_mem (st : AppState) (topic : Option String) (p : Provider) :
    (generate_question st topic p).1.status = 200 ∨ (generate_question st topic p).1.status = 400 ∨
    (generate_question st topic p).1.status = 429 ∨ (generate_question st topic p).1.status = 500 := by
  unfold generate_question generate_question_pipeline generate_question_try
  by_cases hkey : st.GENAI_API_KEY = ""
  · simp [hkey, keyMissingResponse]
  · rw [if_neg hkey]
    by_cases hm : model_name ∈ st.available_models
    · rw [if_pos hm]
      cases hp : p model_name (genPrompt (topic.getD "math")) <;> simp [hp, handleExc]
    · rw [if_neg hm]
      simp [handleExc]

/-- Helper: whatever the state and provider outcome, `evaluate_answer`
responds with one of the statuses 200, 400, 429, 500. -/
theorem evaluate_answer_status_mem (st : AppState) (req : AnswerRequest) (p : Provider) :
    (evaluate_answer st req p).1.status = 200 ∨ (evaluate_answer st req p).1.status = 400 ∨
    (evaluate_answer st req p).1.status = 429 ∨ (evaluate_answer st req p).1.status = 500 := by
  unfold evaluate_answer evaluate_answer_pipeline evaluate_answer_try
  by_cases hkey : st.GENAI_API_KEY = ""
  · simp [hkey, keyMissingResponse]
  · rw [if_neg hkey]
    by_cases hm : model_name ∈ st.available_models
    · rw [if_pos hm]
      cases hp : p model_name (evalPrompt req) <;> simp [hp, handleExc]
    · rw [if_neg hm]
      simp [handleExc]

/-- Helper: the full `POST /evaluate_answer` route responds with one of the
statuses 200, 400, 422, 429, 500. -/
theorem evaluate_answer_route_status_mem (st : AppState) (q a : Option String) (p : Provider) :
    (evaluate_answer_route st q a p).1.status = 200 ∨ (evaluate_answer_route st q a p).1.status = 400 ∨
    (evaluate_answer_route st q a p).1.status = 422 ∨ (evaluate_answer_route st q a p).1.status = 429 ∨
    (evaluate_answer_route st q a p).1.status = 500 := by
  cases hpq : parseAnswerRequest q a with
  | none => simp [evaluate_answer_route, hpq, validationErrorResponse]
  | some req =>
    simp only [evaluate_answer_route, hpq]
    rcases evaluate_answer_status_mem st req p with h | h | h | h <;> simp [h]

end TriviaGenius

namespace TriviaGenius

/-- C1: the claim says that when "models/gemini-1.5-flash" is not in the
startup-fetched `available_models`, both endpoints respond 400 with a
model-not-found detail and never call the provider. The code does skip the
provider call, but the `HTTPException(400)` it raises lies inside the `try`
block, so the blanket `except Exception` catches it and re-raises it as a
500 "Unexpected error: ..." response. This theorem evaluates both handlers
at such a state (empty model list) and shows the actual 500 response and
the empty provider-call list. -/
theorem C1_model_not_found_yields_500 :
    (generate_question ⟨"key", []⟩ none (fun _ _ => .ok "q")) =
      (⟨500, [("detail", "Unexpected error: 400: Model models/gemini-1.5-flash not found. Check your API access.")]⟩, []) ∧
    (evaluate_answer ⟨"key", []⟩ ⟨"2+2?", "5"⟩ (fun _ _ => .ok "f")) =
      (⟨500, [("detail", "Unexpected error: 400: Model models/gemini-1.5-flash not found. Check your API access.")]⟩, []) := by
  constructor <;> decide

/-- C2 (counterexample): the claim requires the returned "question" value to
be non-empty whenever the provider call succeeds, but a provider success
whose text is all whitespace strips to the empty string: at topic "math"
and provider text three spaces, the handler returns 200 with "question"
mapped to the empty string. -/
theorem C2_nonempty_counterexample :
    (generate_question ⟨"key", ["models/gemini-1.5-flash"]⟩ (some "math")
      (fun _ _ => .ok "   ")).1 = ⟨200, [("question", "")]⟩ := by
  decide

/-- C2 (amended): for every valid topic string, when the provider call
succeeds with text `text`, `generate_question` returns 200 with body mapping
"question" to `text` stripped of surrounding whitespace; the result has no
leading and no trailing whitespace character, and it is empty exactly when
the provider text is entirely whitespace. -/
theorem C2_generate_question_trimmed (st : AppState) (topic text : String)
    (hkey : ¬ st.GENAI_API_KEY = "") (hmodel : model_name ∈ st.available_models) :
    (generate_question st (some topic) (fun _ _ => .ok text)).1 =
      ⟨200, [("question", pyStrip text)]⟩ ∧
    ((pyStrip text).data.head?.all fun c => ! c.isWhitespace) = true ∧
    ((pyStrip text).data.getLast?.all fun c => ! c.isWhitespace) = true ∧
    (pyStrip text = "" ↔ text.data.all Char.isWhitespace = true) := by
  refine ⟨?_, ?_, ?_, pyStrip_eq_empty_iff text⟩
  · simp only [generate_question, generate_question_pipeline, generate_question_try,
      if_neg hkey, if_pos hmodel]
  · cases hh : (pyStrip text).data.head? with
    | none => rfl
    | some c => simp [head?_stripChars_not_ws text.data c hh]
  · cases hh : (pyStrip text).data.getLast? with
    | none => rfl
    | some c => simp [getLast?_stripChars_not_ws text.data c hh]

/-- C2 witness: the amended statement at topic "algebra", provider text
" What is x in 2x=10? ", and a state with the model available. -/
theorem C2_generate_question_trimmed_witness :
    (generate_question ⟨"key", ["models/gemini-1.5-flash"]⟩ (some "algebra")
      (fun _ _ => .ok " What is x in 2x=10? ")).1 =
      ⟨200, [("question", pyStrip " What is x in 2x=10? ")]⟩ ∧
    ((pyStrip " What is x in 2x=10? ").data.head?.all fun c => ! c.isWhitespace) = true ∧
    ((pyStrip " What is x in 2x=10? ").data.getLast?.all fun c => ! c.isWhitespace) = true ∧
    (pyStrip " What is x in 2x=10? " = "" ↔
      (" What is x in 2x=10? " : String).data.all Char.isWhitespace = true) :=
  C2_generate_question_trimmed ⟨"key", ["models/gemini-1.5-flash"]⟩ "algebra"
    " What is x in 2x=10? " (by decide) (by decide)

/-- C3: when the provider call raises the rate-limit exception, each endpoint
responds 429 with its quota-exceeded detail message. -/
theorem C3_rate_limit_429 (st : AppState) (topic : Option String) (req : AnswerRequest)
    (pg pe : Provider)
    (hkey : ¬ st.GENAI_API_KEY = "") (hmodel : model_name ∈ st.available_models)
    (hg : pg model_name (genPrompt (topic.getD "math")) = .rateLimit)
    (he : pe model_name (evalPrompt req) = .rateLimit) :
    (generate_question st topic pg).1 =
      ⟨429, [("detail", "Quota exceeded. Please try again later.")]⟩ ∧
    (evaluate_answer st req pe).1 =
      ⟨429, [("detail", "Quota exceeded. Try again later.")]⟩ := by
  constructor
  · simp only [generate_question, generate_question_pipeline, generate_question_try,
      if_neg hkey, if_pos hmodel, hg, handleExc]
  · simp only [evaluate_answer, evaluate_answer_pipeline, evaluate_answer_try,
      if_neg hkey, if_pos hmodel, he, handleExc]

/-- C3 witness: the rate-limit mapping at a concrete state, topic and
request. -/
theorem C3_rate_limit_429_witness :
    (generate_question ⟨"key", ["models/gemini-1.5-flash"]⟩ none (fun _ _ => .rateLimit)).1 =
      ⟨429, [("detail", "Quota exceeded. Please try again later.")]⟩ ∧
    (evaluate_answer ⟨"key", ["models/gemini-1.5-flash"]⟩ ⟨"2+2?", "5"⟩ (fun _ _ => .rateLimit)).1 =
      ⟨429, [("detail", "Quota exceeded. Try again later.")]⟩ :=
  C3_rate_limit_429 ⟨"key", ["models/gemini-1.5-flash"]⟩ none ⟨"2+2?", "5"⟩
    (fun _ _ => .rateLimit) (fun _ _ => .rateLimit) (by decide) (by decide) rfl rfl

/-- C4: when the provider call raises the invalid-request exception with
message `m`, each endpoint responds 400 with detail "Invalid request: m",
which contains the underlying description `m`. -/
theorem C4_invalid_request_400 (st : AppState) (topic : Option String) (req : AnswerRequest)
    (pg pe : Provider) (m m2 : String)
    (hkey : ¬ st.GENAI_API_KEY = "") (hmodel : model_name ∈ st.available_models)
    (hg : pg model_name (genPrompt (topic.getD "math")) = .requestErr m)
    (he : pe model_name (evalPrompt req) = .requestErr m2) :
    (generate_question st topic pg).1 = ⟨400, [("detail", "Invalid request: " ++ m)]⟩ ∧
    (evaluate_answer st req pe).1 = ⟨400, [("detail", "Invalid request: " ++ m2)]⟩ ∧
    (∃ s, "Invalid request: " ++ m = s ++ m) ∧ (∃ s, "Invalid request: " ++ m2 = s ++ m2) := by
  refine ⟨?_, ?_, ⟨"Invalid request: ", rfl⟩, ⟨"Invalid request: ", rfl⟩⟩
  · simp only [generate_question, generate_question_pipeline, generate_question_try,
      if_neg hkey, if_pos hmodel, hg, handleExc]
  · simp only [evaluate_answer, evaluate_answer_pipeline, evaluate_answer_try,
      if_neg hkey, if_pos hmodel, he, handleExc]

/-- C4 witness: the invalid-request mapping at a concrete state, topic,
request and messages. -/
theorem C4_invalid_request_400_witness :
    (generate_question ⟨"key", ["models/gemini-1.5-flash"]⟩ none
      (fun _ _ => .requestErr "bad prompt")).1 =
      ⟨400, [("detail", "Invalid request: " ++ "bad prompt")]⟩ ∧
    (evaluate_answer ⟨"key", ["models/gemini-1.5-flash"]⟩ ⟨"2+2?", "5"⟩
      (fun _ _ => .requestErr "bad body")).1 =
      ⟨400, [("detail", "Invalid request: " ++ "bad body")]⟩ ∧
    (∃ s, "Invalid request: " ++ "bad prompt" = s ++ "bad prompt") ∧
    (∃ s, "Invalid request: " ++ "bad body" = s ++ "bad body") :=
  C4_invalid_request_400 ⟨"key", ["models/gemini-1.5-flash"]⟩ none ⟨"2+2?", "5"⟩
    (fun _ _ => .requestErr "bad prompt") (fun _ _ => .requestErr "bad body")
    "bad prompt" "bad body" (by decide) (by decide) rfl rfl

end TriviaGenius

namespace TriviaGenius

/-- C5: when the provider call raises any exception other than the rate-limit
and invalid-request classes (and the enumerated credential / model checks do
not fire), each endpoint responds 500 with detail "Unexpected error: m"; and
in total, every request to either endpoint — whatever the state, inputs and
provider outcome — receives a response with one of the enumerated statuses,
so no error escapes the handlers. -/
theorem C5_unexpected_error_500 (st st2 : AppState) (topic topic2 : Option String)
    (req : AnswerRequest) (q2 a2 : Option String) (pg pe p2 : Provider) (m m2 : String)
    (hkey : ¬ st.GENAI_API_KEY = "") (hmodel : model_name ∈ st.available_models)
    (hg : pg model_name (genPrompt (topic.getD "math")) = .otherErr m)
    (he : pe model_name (evalPrompt req) = .otherErr m2) :
    (generate_question st topic pg).1 = ⟨500, [("detail", "Unexpected error: " ++ m)]⟩ ∧
    (evaluate_answer st req pe).1 = ⟨500, [("detail", "Unexpected error: " ++ m2)]⟩ ∧
    ((generate_question st2 topic2 p2).1.status = 200 ∨ (generate_question st2 topic2 p2).1.status = 400 ∨
      (generate_question st2 topic2 p2).1.status = 429 ∨ (generate_question st2 topic2 p2).1.status = 500) ∧
    ((evaluate_answer_route st2 q2 a2 p2).1.status = 200 ∨ (evaluate_answer_route st2 q2 a2 p2).1.status = 400 ∨
      (evaluate_answer_route st2 q2 a2 p2).1.status = 422 ∨ (evaluate_answer_route st2 q2 a2 p2).1.status = 429 ∨
      (evaluate_answer_route st2 q2 a2 p2).1.status = 500) := by
  refine ⟨?_, ?_, generate_question_status_mem st2 topic2 p2,
    evaluate_answer_route_status_mem st2 q2 a2 p2⟩
  · simp only [generate_question, generate_question_pipeline, generate_question_try,
      if_neg hkey, if_pos hmodel, hg, handleExc, strOfExc]
  · simp only [evaluate_answer, evaluate_answer_pipeline, evaluate_answer_try,
      if_neg hkey, if_pos hmodel, he, handleExc, strOfExc]

/-- C5 witness: the unexpected-error mapping and the status totality at
concrete inputs. -/
theorem C5_unexpected_error_500_witness :
    (generate_question ⟨"key", ["models/gemini-1.5-flash"]⟩ none (fun _ _ => .otherErr "boom")).1 =
      ⟨500, [("detail", "Unexpected error: " ++ "boom")]⟩ ∧
    (evaluate_answer ⟨"key", ["models/gemini-1.5-flash"]⟩ ⟨"2+2?", "5"⟩
      (fun _ _ => .otherErr "kaboom")).1 =
      ⟨500, [("detail", "Unexpected error: " ++ "kaboom")]⟩ ∧
    ((generate_question ⟨"", []⟩ (some "x") (fun _ _ => .rateLimit)).1.status = 200 ∨
      (generate_question ⟨"", []⟩ (some "x") (fun _ _ => .rateLimit)).1.status = 400 ∨
      (generate_question ⟨"", []⟩ (some "x") (fun _ _ => .rateLimit)).1.status = 429 ∨
      (generate_question ⟨"", []⟩ (some "x") (fun _ _ => .rateLimit)).1.status = 500) ∧
    ((evaluate_answer_route ⟨"", []⟩ none none (fun _ _ => .rateLimit)).1.status = 200 ∨
      (evaluate_answer_route ⟨"", []⟩ none none (fun _ _ => .rateLimit)).1.status = 400 ∨
      (evaluate_answer_route ⟨"", []⟩ none none (fun _ _ => .rateLimit)).1.status = 422 ∨
      (evaluate_answer_route ⟨"", []⟩ none none (fun _ _ => .rateLimit)).1.status = 429 ∨
      (evaluate_answer_route ⟨"", []⟩ none none (fun _ _ => .rateLimit)).1.status = 500) :=
  C5_unexpected_error_500 ⟨"key", ["models/gemini-1.5-flash"]⟩ ⟨"", []⟩ none (some "x")
    ⟨"2+2?", "5"⟩ none none
    (fun _ _ => .otherErr "boom") (fun _ _ => .otherErr "kaboom") (fun _ _ => .rateLimit)
    "boom" "kaboom" (by decide) (by decide) rfl rfl

/-- C6: for every topic (with the query parameter defaulting to "math" when
absent) and any provider outcome, `generate_question` performs exactly one
provider call whose prompt is "Generate a {topic} learning question."; and
when the provider succeeds with text `text`, the response is 200 with
"question" mapped to the stripped text. -/
theorem C6_generate_question_prompt (st : AppState) (topic : Option String)
    (p p2 : Provider) (text : String)
    (hkey : ¬ st.GENAI_API_KEY = "") (hmodel : model_name ∈ st.available_models)
    (hok : p model_name (genPrompt (topic.getD "math")) = .ok text) :
    (generate_question st topic p2).2 = [(model_name, genPrompt (topic.getD "math"))] ∧
    genPrompt (topic.getD "math") = "Generate a " ++ topic.getD "math" ++ " learning question." ∧
    genPrompt ((none : Option String).getD "math") = "Generate a math learning question." ∧
    (generate_question st topic p).1 = ⟨200, [("question", pyStrip text)]⟩ := by
  refine ⟨?_, rfl, rfl, ?_⟩
  · cases hp : p2 model_name (genPrompt (topic.getD "math")) <;>
      simp only [generate_question, generate_question_pipeline, generate_question_try,
        if_neg hkey, if_pos hmodel, hp]
  · simp only [generate_question, generate_question_pipeline, generate_question_try,
      if_neg hkey, if_pos hmodel, hok]

/-- C6 witness: the prompt and success mapping at topic "algebra" with a
stubbed provider returning " What is x in 2x=10? ". -/
theorem C6_generate_question_prompt_witness :
    (generate_question ⟨"key", ["models/gemini-1.5-flash"]⟩ (some "algebra")
      (fun _ _ => .rateLimit)).2 =
      [(model_name, genPrompt ((some "algebra" : Option String).getD "math"))] ∧
    genPrompt ((some "algebra" : Option String).getD "math") =
      "Generate a " ++ (some "algebra" : Option String).getD "math" ++ " learning question." ∧
    genPrompt ((none : Option String).getD "math") = "Generate a math learning question." ∧
    (generate_question ⟨"key", ["models/gemini-1.5-flash"]⟩ (some "algebra")
      (fun _ _ => .ok " What is x in 2x=10? ")).1 =
      ⟨200, [("question", pyStrip " What is x in 2x=10? ")]⟩ :=
  C6_generate_question_prompt ⟨"key", ["models/gemini-1.5-flash"]⟩ (some "algebra")
    (fun _ _ => .ok " What is x in 2x=10? ") (fun _ _ => .rateLimit)
    " What is x in 2x=10? " (by decide) (by decide) rfl

end TriviaGenius

namespace TriviaGenius

/-- C7: for every validated request body, `evaluate_answer` performs exactly
one provider call whose prompt is the fixed multi-line text embedding the
question and answer verbatim (including the instruction to evaluate
correctness and, if incorrect, provide a hint or explanation); and when the
provider succeeds with text `text`, the response is 200 with "feedback"
mapped to the stripped text. -/
theorem C7_evaluate_answer_prompt (st : AppState) (req : AnswerRequest)
    (p p2 : Provider) (text : String)
    (hkey : ¬ st.GENAI_API_KEY = "") (hmodel : model_name ∈ st.available_models)
    (hok : p model_name (evalPrompt req) = .ok text) :
    (evaluate_answer st req p2).2 = [(model_name, evalPrompt req)] ∧
    evalPrompt req =
      "Here is a learning question: " ++ req.question ++ "\nThe user's answer: " ++ req.answer ++
        "\nEvaluate the correctness of this answer. If incorrect, provide a helpful hint or explanation." ∧
    (∃ s1 s2 s3, evalPrompt req = s1 ++ req.question ++ s2 ++ req.answer ++ s3) ∧
    ('\n' ∈ (evalPrompt req).data) ∧
    (evaluate_answer st req p).1 = ⟨200, [("feedback", pyStrip text)]⟩ := by
  refine ⟨?_, ?_, ?_, ?_, ?_⟩
  · cases hp : p2 model_name (evalPrompt req) <;>
      simp only [evaluate_answer, evaluate_answer_pipeline, evaluate_answer_try,
        if_neg hkey, if_pos hmodel, hp]
  · simp [evalPrompt, String.append_assoc]
  · exact ⟨"Here is a learning question: ", "\nThe user's answer: ",
      "\nEvaluate the correctness of this answer. If incorrect, provide a helpful hint or explanation.",
      by simp [evalPrompt, String.append_assoc]⟩
  · have hn : '\n' ∈ ("\n" : String).data := by decide
    simp only [evalPrompt, String.data_append, List.mem_append]
    tauto
  · simp only [evaluate_answer, evaluate_answer_pipeline, evaluate_answer_try,
      if_neg hkey, if_pos hmodel, hok]

/-- C7 witness: the prompt structure and success mapping at the request
("2+2?", "5") with a stubbed provider returning "Incorrect; 2+2=4.". -/
theorem C7_evaluate_answer_prompt_witness :
    (evaluate_answer ⟨"key", ["models/gemini-1.5-flash"]⟩ ⟨"2+2?", "5"⟩
      (fun _ _ => .rateLimit)).2 =
      [(model_name, evalPrompt ⟨"2+2?", "5"⟩)] ∧
    evalPrompt ⟨"2+2?", "5"⟩ =
      "Here is a learning question: " ++ (⟨"2+2?", "5"⟩ : AnswerRequest).question ++
        "\nThe user's answer: " ++ (⟨"2+2?", "5"⟩ : AnswerRequest).answer ++
        "\nEvaluate the correctness of this answer. If incorrect, provide a helpful hint or explanation." ∧
    (∃ s1 s2 s3, evalPrompt ⟨"2+2?", "5"⟩ =
      s1 ++ (⟨"2+2?", "5"⟩ : AnswerRequest).question ++ s2 ++
        (⟨"2+2?", "5"⟩ : AnswerRequest).answer ++ s3) ∧
    ('\n' ∈ (evalPrompt ⟨"2+2?", "5"⟩).data) ∧
    (evaluate_answer ⟨"key", ["models/gemini-1.5-flash"]⟩ ⟨"2+2?", "5"⟩
      (fun _ _ => .ok "Incorrect; 2+2=4.")).1 =
      ⟨200, [("feedback", pyStrip "Incorrect; 2+2=4.")]⟩ :=
  C7_evaluate_answer_prompt ⟨"key", ["models/gemini-1.5-flash"]⟩ ⟨"2+2?", "5"⟩
    (fun _ _ => .ok "Incorrect; 2+2=4.") (fun _ _ => .rateLimit)
    "Incorrect; 2+2=4." (by decide) (by decide) rfl

/-- C8: every `POST /evaluate_answer` body missing the question field or the
answer field (or both) is rejected by schema validation with status 422 and
the provider is never called. -/
theorem C8_missing_field_422 (st : AppState) (q a : Option String) (p : Provider)
    (h : q = none ∨ a = none) :
    (evaluate_answer_route st q a p).1 = validationErrorResponse ∧
    (evaluate_answer_route st q a p).1.status = 422 ∧
    (evaluate_answer_route st q a p).2 = [] := by
  have hp : parseAnswerRequest q a = none := by
    rcases h with h | h <;> subst h
    · cases a <;> rfl
    · cases q <;> rfl
  simp [evaluate_answer_route, hp, validationErrorResponse]

/-- C8 witness: a body with the question field missing is rejected with 422
and no provider call. -/
theorem C8_missing_field_422_witness :
    (evaluate_answer_route ⟨"key", ["models/gemini-1.5-flash"]⟩ none (some "5")
      (fun _ _ => .ok "f")).1 = validationErrorResponse ∧
    (evaluate_answer_route ⟨"key", ["models/gemini-1.5-flash"]⟩ none (some "5")
      (fun _ _ => .ok "f")).1.status = 422 ∧
    (evaluate_answer_route ⟨"key", ["models/gemini-1.5-flash"]⟩ none (some "5")
      (fun _ _ => .ok "f")).2 = [] :=
  C8_missing_field_422 ⟨"key", ["models/gemini-1.5-flash"]⟩ none (some "5")
    (fun _ _ => .ok "f") (Or.inl rfl)

/-- C9: startup raises (the process fails to start) exactly when
`GENAI_API_KEY` is absent or empty; when it is present and non-empty,
startup proceeds and records the key and the fetched model list. -/
theorem C9_startup_credential_check (envKey : Option String) (lm : Except String (List String)) :
    ((envKey = none ∨ envKey = some "") →
      startup envKey lm =
        .error "❌ Google Gemini API key is missing! Set GENAI_API_KEY in .env or environment variables.") ∧
    (∀ k : String, envKey = some k → ¬ k = "" →
      startup envKey lm = .ok ⟨k, fetchedModels lm⟩) := by
  constructor
  · intro h
    rcases h with h | h <;> subst h <;> simp [startup, pyFalsy]
  · intro k hk hne
    subst hk
    simp [startup, pyFalsy, hne]

/-- C9 witness: startup fails on an absent key and proceeds on a present
non-empty key (even when the model-list fetch failed). -/
theorem C9_startup_credential_check_witness :
    startup none (.ok ["models/gemini-1.5-flash"]) =
      .error "❌ Google Gemini API key is missing! Set GENAI_API_KEY in .env or environment variables." ∧
    startup (some "key") (.error "network down") = .ok ⟨"key", []⟩ :=
  ⟨(C9_startup_credential_check none (.ok ["models/gemini-1.5-flash"])).1 (Or.inl rfl),
    (C9_startup_credential_check (some "key") (.error "network down")).2 "key" rfl (by decide)⟩

/-- C10: in any state produced by a successful startup, the key is non-empty,
so both handlers are equal to their post-credential-check pipelines — the
in-handler branch returning the 500 "Google Gemini API key is missing!"
response is unreachable for the lifetime of the process. -/
theorem C10_key_check_unreachable (envKey : Option String) (lm : Except String (List String))
    (st : AppState) (topic : Option String) (req : AnswerRequest) (p : Provider)
    (h : startup envKey lm = .ok st) :
    ¬ st.GENAI_API_KEY = "" ∧
    generate_question st topic p = generate_question_pipeline st topic p ∧
    evaluate_answer st req p = evaluate_answer_pipeline st req p := by
  have hkey : ¬ st.GENAI_API_KEY = "" := by
    cases envKey with
    | none => simp [startup, pyFalsy] at h
    | some k =>
      by_cases hk : k = ""
      · subst hk; simp [startup, pyFalsy] at h
      · rw [startup, if_neg (by simp [pyFalsy, hk])] at h
        cases h
        exact hk
  exact ⟨hkey, if_neg hkey, if_neg hkey⟩

/-- C10 witness: the unreachability of the credential branch at a concrete
startup and concrete requests. -/
theorem C10_key_check_unreachable_witness :
    ¬ (⟨"key", ["models/gemini-1.5-flash"]⟩ : AppState).GENAI_API_KEY = "" ∧
    generate_question ⟨"key", ["models/gemini-1.5-flash"]⟩ (some "math") (fun _ _ => .ok "q") =
      generate_question_pipeline ⟨"key", ["models/gemini-1.5-flash"]⟩ (some "math") (fun _ _ => .ok "q") ∧
    evaluate_answer ⟨"key", ["models/gemini-1.5-flash"]⟩ ⟨"2+2?", "5"⟩ (fun _ _ => .ok "q") =
      evaluate_answer_pipeline ⟨"key", ["models/gemini-1.5-flash"]⟩ ⟨"2+2?", "5"⟩ (fun _ _ => .ok "q") :=
  C10_key_check_unreachable (some "key") (.ok ["models/gemini-1.5-flash"])
    ⟨"key", ["models/gemini-1.5-flash"]⟩ (some "math") ⟨"2+2?", "5"⟩
    (fun _ _ => .ok "q") (by rfl)

end TriviaGenius
